import Mathlib

/-!
Shallow embedding of the gdb-load-ovl debugger scripts
(src/gdb_load_ovl.py, the legacy `ovl` command, and
src/gdb_load_z64overlay.py, the tracking `z64ovl` command).

Host-debugger interactions (outputs of the `info symbol`, `info file` and
`printf` commands, symbol lookups, overlay-table reads) are modelled as an
explicit environment record; the scripts' own string parsing, arithmetic and
registry bookkeeping are translated function by function.  Python string
methods are re-implemented on `List Char` with structural recursion so that
every definition evaluates inside the kernel.  Host commands issued by the
scripts (`add-symbol-file`, `remove-symbol-file`) are recorded as values of an
explicit `HostCall` type, and `print` output is collected in a list.
-/

namespace GdbLoadOvl

/-- Python whitespace characters recognised by `str.strip` (the ASCII ones;
the inputs at hand contain no other whitespace). -/
def pyIsSpace (c : Char) : Bool :=
  c == ' ' || c == '\t' || c == '\n' || c == '\r' || c == Char.ofNat 11 || c == Char.ofNat 12

/-- Whether the first list is a prefix of the second (Boolean, structural). -/
def isPrefixList : List Char → List Char → Bool
  | [], _ => true
  | _ :: _, [] => false
  | a :: as, b :: bs => a == b && isPrefixList as bs

/-- Fuel-driven worker for Python `str.split(sep)` with a nonempty separator. -/
def splitAux (sep : List Char) : Nat → List Char → List Char → List (List Char)
  | 0, acc, rest => [acc.reverse ++ rest]
  | fuel + 1, acc, rest =>
    if isPrefixList sep rest then
      acc.reverse :: splitAux sep fuel [] (rest.drop sep.length)
    else
      match rest with
      | [] => [acc.reverse]
      | c :: rs => splitAux sep fuel (c :: acc) rs

/-- Python `s.split(sep)` for a nonempty separator `sep`. -/
def pySplit (s sep : String) : List String :=
  (splitAux sep.data (s.data.length + 1) [] s.data).map String.mk

/-- Python `s.strip()`. -/
def pyStrip (s : String) : String :=
  String.mk (((s.data.dropWhile pyIsSpace).reverse.dropWhile pyIsSpace).reverse)

/-- Python `s.rstrip()`. -/
def pyRstrip (s : String) : String :=
  String.mk ((s.data.reverse.dropWhile pyIsSpace).reverse)

/-- Fuel-driven worker locating the first occurrence of `sep`: returns the
text before and after it, or `none` if `sep` does not occur. -/
def partAux (sep : List Char) : Nat → List Char → List Char → Option (List Char × List Char)
  | 0, _, _ => none
  | fuel + 1, acc, rest =>
    if isPrefixList sep rest then some (acc.reverse, rest.drop sep.length)
    else
      match rest with
      | [] => none
      | c :: rs => partAux sep fuel (c :: acc) rs

/-- Python `s.partition(sep)[0]`: the text before the first occurrence of
`sep`, or all of `s` when `sep` does not occur. -/
def pyPartitionBefore (s sep : String) : String :=
  match partAux sep.data (s.data.length + 1) [] s.data with
  | some (before, _) => String.mk before
  | none => s

/-- Python `s.partition(sep)[2]`: the text after the first occurrence of
`sep`, or the empty string when `sep` does not occur. -/
def pyPartitionAfter (s sep : String) : String :=
  match partAux sep.data (s.data.length + 1) [] s.data with
  | some (_, after) => String.mk after
  | none => ""

/-- Python `s.removeprefix("..")` as applied to section names
(gdb_load_z64overlay.py, line 153). -/
def stripDotDot (s : String) : String :=
  if isPrefixList (".." : String).data s.data then String.mk (s.data.drop 2) else s

/-- Python `s.upper()` (ASCII; the command arguments at hand are ASCII). -/
def pyUpper (s : String) : String :=
  String.mk (s.data.map Char.toUpper)

/-- Hexadecimal digit, either case (the character class of
`[0-9a-f]` under `re.IGNORECASE`). -/
def isHexDigitChar (c : Char) : Bool :=
  c.isDigit || ('a' ≤ c && c ≤ 'f') || ('A' ≤ c && c ≤ 'F')

/-- Value of a hexadecimal digit. -/
def hexVal (c : Char) : Nat :=
  if c.isDigit then c.toNat - 48
  else if 'a' ≤ c && c ≤ 'f' then c.toNat - 87
  else c.toNat - 55

/-- Numeric value of a most-significant-first hex digit list. -/
def hexAccum (ds : List Char) : Nat :=
  ds.foldl (fun a c => 16 * a + hexVal c) 0

/-- Consume `[0-9a-fA-F]+` greedily; fails on zero digits. -/
def takeHex1 (cs : List Char) : Option (Nat × List Char) :=
  let ds := cs.takeWhile isHexDigitChar
  if ds.isEmpty then none else some (hexAccum ds, cs.drop ds.length)

/-- Consume the regex fragment `0x[0-9a-f]+` (case-insensitive, matching the
behaviour of `re.IGNORECASE`), returning its numeric value and the rest. -/
def parseHexToken : List Char → Option (Nat × List Char)
  | '0' :: c :: rest => if c == 'x' || c == 'X' then takeHex1 rest else none
  | _ => none

/-- Consume an exact literal, or fail. -/
def dropLit (lit cs : List Char) : Option (List Char) :=
  if isPrefixList lit cs then some (cs.drop lit.length) else none

/-- Consume the literal `" is "` case-insensitively (its letters fall under
`re.IGNORECASE`). -/
def dropIsLit : List Char → Option (List Char)
  | ' ' :: c1 :: c2 :: ' ' :: rest =>
    if (c1 == 'i' || c1 == 'I') && (c2 == 's' || c2 == 'S') then some rest else none
  | _ => none

/-- Full match of `INFO_FILE_LINE_PATTERN`, the regex
`(0x[0-9a-f]+) - (0x[0-9a-f]+) is (.*)` compiled with `re.IGNORECASE`
(gdb_load_z64overlay.py, lines 100-102).  The trailing `(.*)` cannot cross a
newline, and `fullmatch` anchors both ends. -/
def parse_info_file_line (line : String) : Option (Nat × Nat × String) :=
  match parseHexToken line.data with
  | none => none
  | some (startAddr, r1) =>
    match dropLit (" - " : String).data r1 with
    | none => none
    | some r2 =>
      match parseHexToken r2 with
      | none => none
      | some (endAddr, r3) =>
        match dropIsLit r3 with
        | none => none
        | some r4 =>
          if r4.contains '\n' then none else some (startAddr, endAddr, String.mk r4)

/-- The `& 0xFFFF_FFFF` masking and the `.cast(TYPE_U32)` casts: the low 32
bits of a nonnegative integer, written as a remainder. -/
def maskU32 (n : Nat) : Nat := n % 4294967296

/-- A raised Python exception: its message and the notes attached with
`add_note`. -/
structure ErrorInfo where
  msg : String
  notes : List String
deriving DecidableEq

/-- Effect of Python `e.add_note(n)`. -/
def ErrorInfo.addNote (e : ErrorInfo) (n : String) : ErrorInfo :=
  ⟨e.msg, e.notes ++ [n]⟩

/-- Hexadecimal digit character, lowercase. -/
def hexDigitChar (n : Nat) : Char :=
  if n < 10 then Char.ofNat (48 + n) else Char.ofNat (87 + n)

/-- Fuel-driven hex digit expansion, most significant first. -/
def hexDigitsAux : Nat → Nat → List Char
  | 0, _ => []
  | fuel + 1, n => if n == 0 then [] else hexDigitsAux fuel (n / 16) ++ [hexDigitChar (n % 16)]

/-- Python `hex(n)`, also the f-string format `{n:#x}`, for nonnegative `n`. -/
def pyHex (n : Nat) : String :=
  if n == 0 then "0x0" else "0x" ++ String.mk (hexDigitsAux n n)

/-- One iteration of the loop of `get_section_by_addr`
(gdb_load_z64overlay.py, lines 116-126): parse the line, mask both bounds to
32 bits, and test half-open containment. -/
def line_match (addr : Nat) (line : String) : Option String :=
  match parse_info_file_line line with
  | none => none
  | some (s, e, secName) =>
    if maskU32 s ≤ addr ∧ addr < maskU32 e then some secName else none

/-- Function `get_section_by_addr` (gdb_load_z64overlay.py, lines 105-127),
taking the `splitlines()` of the `info file` output. -/
def get_section_by_addr (info_file_lines : List String) (addr : Nat) :
    Except ErrorInfo String :=
  match info_file_lines.findSome? (line_match addr) with
  | some secName => Except.ok secName
  | none => Except.error ⟨"No section found for address " ++ pyHex addr, []⟩

/-- Function `get_sym_section` (gdb_load_z64overlay.py, lines 83-97), applied
to the text returned by the host for `info symbol`. -/
def get_sym_section (info_sym : String) : Except ErrorInfo String :=
  let parts := pySplit info_sym ("in section ")
  if parts.length = 2 then
    let parts2 := pySplit (parts.getD 1 "") (" of ")
    Except.ok (pyStrip (parts2.getD 0 ""))
  else
    Except.error ⟨"Unexpected result for info symbol", []⟩

/-- Python `int(s, 16)` as applied to the output of `printf "%x"`: optional
surrounding whitespace, optional `0x` prefix, one or more hex digits. -/
def parsePyHex (s : String) : Option Nat :=
  let t := ((s.data.dropWhile pyIsSpace).reverse.dropWhile pyIsSpace).reverse
  let t2 :=
    match t with
    | '0' :: c :: rest => if c == 'x' || c == 'X' then rest else t
    | _ => t
  if t2.isEmpty then none
  else if t2.all isHexDigitChar then some (hexAccum t2) else none

/-- Function `get_sym_addr_from_name` (gdb_load_z64overlay.py, lines 39-48);
the host's output for `printf "%x", &name` is `printfOut name`.  The message
paraphrases the ValueError text of line 46. -/
def get_sym_addr_from_name (printfOut : String → String) (name : String) :
    Except ErrorInfo Nat :=
  match parsePyHex (printfOut name) with
  | some n => Except.ok n
  | none => Except.error ⟨"Unexpected result for printf of " ++ name, []⟩

/-- The linker-symbol name built by `get_section_address`
(gdb_load_z64overlay.py, line 135). -/
def section_start_name (ovl_name section_name : String) : String :=
  "_" ++ ovl_name ++ "Segment" ++ section_name ++ "Start"

/-- A single-quote character, used by the self-documenting f-string format
`{section_start_name=}` in the attached note. -/
def sq : String := String.singleton (Char.ofNat 39)

/-- Function `get_section_address` (gdb_load_z64overlay.py, lines 134-140):
resolve the conventional linker symbol, attaching a note naming it on
failure. -/
def get_section_address (printfOut : String → String) (ovl_name section_name : String) :
    Except ErrorInfo Nat :=
  match get_sym_addr_from_name printfOut (section_start_name ovl_name section_name) with
  | Except.ok a => Except.ok a
  | Except.error e =>
    Except.error
      (e.addNote ("section_start_name=" ++ sq ++ section_start_name ovl_name section_name ++ sq))

/-- The `SectionType` enum (gdb_load_z64overlay.py, lines 28-36). -/
inductive SectionType
  | text
  | data
  | rodata
  | bss
deriving DecidableEq

/-- The `section_name` member of `SectionType`. -/
def SectionType.section_name : SectionType → String
  | SectionType.text => ".text"
  | SectionType.data => ".data"
  | SectionType.rodata => ".rodata"
  | SectionType.bss => ".bss"

/-- The `linker_script_name` member of `SectionType`. -/
def SectionType.linker_script_name : SectionType → String
  | SectionType.text => "Text"
  | SectionType.data => "Data"
  | SectionType.rodata => "RoData"
  | SectionType.bss => "Bss"

/-- Iteration order of `for sec in SectionType`. -/
def sectionTypes : List SectionType :=
  [SectionType.text, SectionType.data, SectionType.rodata, SectionType.bss]

/-- The per-section runtime offset of gdb_load_z64overlay.py, line 161:
`alloc_address + (ovl_addresses[sec] - vram_address)` over unbounded Python
integers. -/
def section_offset (alloc_address vram_address ovl_address : Nat) : Int :=
  (alloc_address : Int) + ((ovl_address : Int) - (vram_address : Int))

/-- The `ovl_offsets` dict comprehension (gdb_load_z64overlay.py,
lines 160-162). -/
def ovl_offsets (alloc_address vram_address : Nat) (ovl_addresses : List (SectionType × Nat)) :
    List (SectionType × Int) :=
  ovl_addresses.map (fun p => (p.1, section_offset alloc_address vram_address p.2))

/-- The four offsets of the legacy variant (gdb_load_ovl.py, lines 35-38):
text, data, rodata, bss. -/
def ovl_legacy_offsets (alloc_address t d rd b : Nat) : Int × Int × Int × Int :=
  ((alloc_address : Int),
    (alloc_address : Int) + ((d : Int) - (t : Int)),
    (alloc_address : Int) + ((rd : Int) - (t : Int)),
    (alloc_address : Int) + ((b : Int) - (t : Int)))

/-- One entry of an overlay table as read through the host: the two fields
the scripts use.  Values are masked with `maskU32` at the cast sites. -/
structure TableEntry where
  loadedRamAddr : Nat
  vramStart : Nat
deriving DecidableEq

/-- Host-debugger responses consumed by the tracking variant.  Each field is
the (pure) response of one host API the script calls; `symNameFromAddr`
abstracts `get_sym_name_from_addr` (lines 56-80), whose format-string parsing
no claim concerns. -/
structure Env where
  infoSymbolOut : Nat → String
  infoFileLines : List String
  printfOut : String → String
  symNameFromAddr : Nat → Except ErrorInfo String
  symtabFilename : String → String
  progspaceFilename : String
  lookupEnum : String → Option Nat
  tableEntry : String → Nat → TableEntry

/-- Host commands with side effects issued by the scripts. -/
inductive HostCall
  | addSymbolFile (readnow : Bool) (path : String) (baseOffset : Nat)
      (sections : List (String × Int))
  | removeSymbolFile (path : String)
deriving DecidableEq

/-- The `loaded_z64overlay_objects` dict (gdb_load_z64overlay.py, line 131):
address to object-path map, association list in insertion order. -/
abbrev Registry := List (Nat × String)

/-- Python `alloc_address in loaded_z64overlay_objects`. -/
def Registry.containsAddr (r : Registry) (a : Nat) : Bool :=
  r.any (fun p => p.1 == a)

/-- Python dict assignment `d[k] = v`. -/
def Registry.setAddr (r : Registry) (a : Nat) (v : String) : Registry :=
  if Registry.containsAddr r a then r.map (fun p => if p.1 == a then (a, v) else p)
  else r ++ [(a, v)]

/-- Mutable state of the tracking script: the registry and the `enabled` flag
of the `Overlay_Load` breakpoint. -/
structure St where
  registry : Registry
  bpLoadEnabled : Bool
deriving DecidableEq

/-- Result of one invocation: the raised exception if any, the final script
state, the effectful host commands issued, and the printed lines. -/
structure Outcome (σ : Type) where
  error : Option ErrorInfo
  st : σ
  calls : List HostCall
  prints : List String
deriving DecidableEq

/-- Split a character list at the last occurrence of `c`. -/
def splitLast (c : Char) (cs : List Char) : Option (List Char × List Char) :=
  match partAux [c] (cs.length + 1) [] cs.reverse with
  | some (b, a) => some (a.reverse, b.reverse)
  | none => none

/-- `pathlib.Path(p).parent` rendered as a string. -/
def pathParent (p : String) : String :=
  match splitLast '/' p.data with
  | some (init, _) => if init.isEmpty then "/" else String.mk init
  | none => "."

/-- The final path component. -/
def fileName (p : String) : String :=
  match splitLast '/' p.data with
  | some (_, tail) => String.mk tail
  | none => p

/-- Remove the final extension of a file name (`pathlib` suffix semantics:
everything from the last dot, unless the name starts with that dot). -/
def stripSuffix (f : String) : String :=
  match splitLast '.' f.data with
  | some (base, _) => if base.isEmpty then f else String.mk base
  | none => f

/-- `pathlib.Path(p).stem`. -/
def pathStem (p : String) : String :=
  stripSuffix (fileName p)

/-- `pathlib.Path(p).with_suffix(suffix2)`. -/
def pathWithSuffix (p suffix2 : String) : String :=
  match splitLast '/' p.data with
  | some (init, tail) => String.mk init ++ "/" ++ stripSuffix (String.mk tail) ++ suffix2
  | none => stripSuffix p ++ suffix2

/-- The try/except of gdb_load_z64overlay.py, lines 147-151: try
`get_sym_section`, and on ValueError print a notice and fall back to
`get_section_by_addr`.  Returns the section-name result and the lines printed
while obtaining it. -/
def load_resolve_sec_name (env : Env) (vram_address : Nat) :
    Except ErrorInfo String × List String :=
  match get_sym_section (env.infoSymbolOut vram_address) with
  | Except.ok s => (Except.ok s, [])
  | Except.error _ =>
    (get_section_by_addr env.infoFileLines vram_address,
      ["get_sym_section() failed, trying get_section_by_addr()"])

/-- The `ovl_addresses` dict comprehension (gdb_load_z64overlay.py,
lines 155-158): resolve the four section start addresses in the iteration
order of `SectionType`, propagating the first failure. -/
def get_ovl_addresses (printfOut : String → String) (ovl_sec_name : String) :
    Except ErrorInfo (List (SectionType × Nat)) :=
  match get_section_address printfOut ovl_sec_name (SectionType.linker_script_name .text) with
  | Except.error e => Except.error e
  | Except.ok t =>
    match get_section_address printfOut ovl_sec_name (SectionType.linker_script_name .data) with
    | Except.error e => Except.error e
    | Except.ok d =>
      match get_section_address printfOut ovl_sec_name
          (SectionType.linker_script_name .rodata) with
      | Except.error e => Except.error e
      | Except.ok rd =>
        match get_section_address printfOut ovl_sec_name
            (SectionType.linker_script_name .bss) with
        | Except.error e => Except.error e
        | Except.ok b =>
          Except.ok [(SectionType.text, t), (SectionType.data, d),
            (SectionType.rodata, rd), (SectionType.bss, b)]

/-- Function `load_z64overlay_object` (gdb_load_z64overlay.py,
lines 143-187). -/
def load_z64overlay_object (env : Env) (st : St) (alloc_address vram_address : Nat) :
    Outcome St :=
  if Registry.containsAddr st.registry alloc_address then
    ⟨some ⟨"Already loaded", []⟩, st, [], []⟩
  else
    match load_resolve_sec_name env vram_address with
    | (Except.error e, ps) => ⟨some e, st, [], ps⟩
    | (Except.ok rawSec, ps) =>
      let ovl_sec_name := stripDotDot rawSec
      match get_ovl_addresses env.printfOut ovl_sec_name with
      | Except.error e => ⟨some e, st, [], ps⟩
      | Except.ok ovl_addresses =>
        let offs := ovl_offsets alloc_address vram_address ovl_addresses
        match env.symNameFromAddr vram_address with
        | Except.error e => ⟨some e, st, [], ps⟩
        | Except.ok symName =>
          let target_filename_c := env.symtabFilename symName
          let target_filename_o_p :=
            pathWithSuffix (pathParent env.progspaceFilename ++ "/" ++ target_filename_c)
              (".o")
          let registry2 := Registry.setAddr st.registry alloc_address target_filename_o_p
          ⟨none, ⟨registry2, st.bpLoadEnabled⟩,
            [HostCall.addSymbolFile true target_filename_o_p 0xFF000000
              (offs.map (fun q => (SectionType.section_name q.1, q.2)))],
            ps ++ ["Reading " ++ pathStem target_filename_o_p ++ "...", "Complete."]⟩

/-- Function `unload_z64overlay_object` (gdb_load_z64overlay.py,
lines 190-198). -/
def unload_z64overlay_object (st : St) (alloc_address : Nat) : Outcome St :=
  match st.registry.find? (fun p => p.1 == alloc_address) with
  | some entry =>
    let registry2 := st.registry.filter (fun p => !(p.1 == alloc_address))
    ⟨none, ⟨registry2, st.bpLoadEnabled⟩,
      [HostCall.removeSymbolFile entry.2],
      ["Unloading overlay: " ++ pathStem entry.2 ++ " (" ++ toString registry2.length
        ++ " left)"]⟩
  | none => ⟨none, st, [], []⟩

/-- Function `load_z64overlay_object_from_table` (gdb_load_z64overlay.py,
lines 201-210). -/
def load_z64overlay_object_from_table (env : Env) (st : St) (tableName : String)
    (index : Nat) : Outcome St :=
  let alloc_address := maskU32 (env.tableEntry tableName index).loadedRamAddr
  if alloc_address = 0 then
    ⟨none, st, [], ["ERROR: Requested overlay is not currently loaded"]⟩
  else
    let vram_address := maskU32 (env.tableEntry tableName index).vramStart
    load_z64overlay_object env st alloc_address vram_address

/-- The regex `re.findall(r"^([^_]+)", arg)` with its `matches[0]` access:
the nonempty maximal leading run of non-underscore characters, or `none`
(in which case `matches[0]` raises IndexError). -/
def leading_non_underscore (s : String) : Option String :=
  let p := s.data.takeWhile (fun c => !(c == '_'))
  if p.isEmpty then none else some (String.mk p)

/-- The `ovl_type` dispatch chain shared verbatim by both variants
(gdb_load_z64overlay.py lines 242-247; gdb_load_ovl.py lines 82-87): which
overlay-table global each recognised enum-name leading run selects. -/
def table_for_ovl_type (ty : String) : Option String :=
  if ty = "GAMESTATE" then some "gGameStateOverlayTable"
  else if ty = "ACTOR" then some "gActorOverlayTable"
  else if ty = "EFFECT" then some "gEffectSsOverlayTable"
  else none

/-- Method `LoadZ64OvlCmd.invoke` (gdb_load_z64overlay.py, lines 217-259). -/
def z64ovl_invoke (env : Env) (st : St) (arg0 : String) : Outcome St :=
  let arg := pyUpper arg0
  if arg = "AUTO ON" then
    ⟨none, ⟨st.registry, true⟩, [], ["z64 overlays will be automatically loaded"]⟩
  else if arg = "AUTO OFF" then
    ⟨none, ⟨st.registry, false⟩, [], ["z64 overlays will NOT be automatically loaded"]⟩
  else if arg = "PAUSE" ∨ arg = "KALEIDO" ∨ arg = "KALEIDO_SCOPE" then
    load_z64overlay_object_from_table env st ("gKaleidoMgrOverlayTable") 0
  else if arg = "ACTOR_PLAYER" then
    load_z64overlay_object_from_table env st ("gKaleidoMgrOverlayTable") 1
  else
    match leading_non_underscore arg with
    | none => ⟨some ⟨"IndexError", []⟩, st, [], []⟩
    | some ovl_type =>
      match table_for_ovl_type ovl_type with
      | none => ⟨none, st, [], ["ERROR: Type of enum provided is not supported"]⟩
      | some tableName =>
        match env.lookupEnum arg with
        | none =>
          ⟨none, st, [], ["ERROR: Provided enum value could not be found in the elf"]⟩
        | some index => load_z64overlay_object_from_table env st tableName index

/-- Host-debugger responses consumed by the legacy variant. -/
structure OvlEnv where
  infoSymbolVramStart : String
  infoSym : String → String
  printfOut : String → String
  symtabFilename : String → String
  lookupEnum : String → Option Nat
  tableEntry : String → Nat → TableEntry

/-- The `obj_address_map` of the legacy script: hex-string key to object-path
association list. -/
abbrev OvlRegistry := List (String × String)

/-- Python dict assignment on the legacy map. -/
def OvlRegistry.setKey (r : OvlRegistry) (k v : String) : OvlRegistry :=
  if r.any (fun p => p.1 == k) then r.map (fun p => if p.1 == k then (k, v) else p)
  else r ++ [(k, v)]

/-- Function `GetAllocAddress` (gdb_load_ovl.py, lines 13-14). -/
def GetAllocAddress (env : OvlEnv) (tableName : String) (index : Nat) : Nat :=
  maskU32 (env.tableEntry tableName index).loadedRamAddr

/-- The `target_func_name` computation of gdb_load_ovl.py, line 23: first
word of the `info symbol vramStart` output. -/
def ovl_target_func_name (env : OvlEnv) : String :=
  pyRstrip (pyPartitionBefore env.infoSymbolVramStart (" "))

/-- The `ovl_sec_name` computation of gdb_load_ovl.py, lines 26-28: extract
the section name from the `info sym` output. -/
def ovl_sec_name_of (env : OvlEnv) : String :=
  pyRstrip
    (pyPartitionBefore
      (pyPartitionAfter (env.infoSym (ovl_target_func_name env)) ("section ..")) (" "))

/-- The four sequential section-address lookups of gdb_load_ovl.py,
lines 30-33, propagating the first failure. -/
def get_legacy_addresses (printfOut : String → String) (ovl_sec_name : String) :
    Except ErrorInfo (Nat × Nat × Nat × Nat) :=
  match get_section_address printfOut ovl_sec_name ("Text") with
  | Except.error e => Except.error e
  | Except.ok t =>
    match get_section_address printfOut ovl_sec_name ("Data") with
    | Except.error e => Except.error e
    | Except.ok d =>
      match get_section_address printfOut ovl_sec_name ("RoData") with
      | Except.error e => Except.error e
      | Except.ok rd =>
        match get_section_address printfOut ovl_sec_name ("Bss") with
        | Except.error e => Except.error e
        | Except.ok b => Except.ok (t, d, rd, b)

/-- Function `AddOverlaySymbols` (gdb_load_ovl.py, lines 16-53).  The names
`get_section_address` and `obj_address_map` are referenced by this script
without a local definition; the `get_section_address` of
gdb_load_z64overlay.py is used for the former, and the latter is an
initially-empty dict. -/
def AddOverlaySymbols (env : OvlEnv) (r : OvlRegistry) (alloc_address : Nat) :
    Outcome OvlRegistry :=
  if alloc_address = 0 then
    ⟨none, r, [], ["ERROR: Requested overlay is not currently loaded"]⟩
  else
    match get_legacy_addresses env.printfOut (ovl_sec_name_of env) with
    | Except.error e =>
      ⟨some e, r, [], ["Loading symbols for actor at " ++ toString alloc_address]⟩
    | Except.ok (t, d, rd, b) =>
      let offs := ovl_legacy_offsets alloc_address t d rd b
      let target_filename := env.symtabFilename (ovl_target_func_name env)
      let obj_name := "build/" ++ String.mk target_filename.data.dropLast ++ "o"
      let r2 := OvlRegistry.setKey r (pyHex alloc_address) obj_name
      ⟨none, r2,
        [HostCall.addSymbolFile true obj_name 0xFF000000
          [(".text", offs.1), (".data", offs.2.1),
            (".rodata", offs.2.2.1), (".bss", offs.2.2.2)]],
        ["Loading symbols for actor at " ++ toString alloc_address,
          "Loading overlay: " ++ obj_name]⟩

/-- Method `LoadOvlCmd.invoke` (gdb_load_ovl.py, lines 59-91).  Note the
enum lookup happens before the `ovl_type` dispatch in this variant. -/
def ovl_invoke (env : OvlEnv) (r : OvlRegistry) (arg0 : String) : Outcome OvlRegistry :=
  let arg := pyUpper arg0
  if arg = "PAUSE" ∨ arg = "KALEIDO" ∨ arg = "KALEIDO_SCOPE" then
    AddOverlaySymbols env r (GetAllocAddress env ("gKaleidoMgrOverlayTable") 0)
  else if arg = "ACTOR_PLAYER" then
    AddOverlaySymbols env r (GetAllocAddress env ("gKaleidoMgrOverlayTable") 1)
  else
    match env.lookupEnum arg with
    | none => ⟨none, r, [], ["ERROR: Provided enum value could not be found in the elf"]⟩
    | some index =>
      match leading_non_underscore arg with
      | none => ⟨some ⟨"IndexError", []⟩, r, [], []⟩
      | some ovl_type =>
        match table_for_ovl_type ovl_type with
        | none => ⟨some ⟨"Type of enum provided is not supported", []⟩, r, [], []⟩
        | some tableName => AddOverlaySymbols env r (GetAllocAddress env tableName index)

/-- A bland environment for concrete instantiations. -/
def trivEnv : Env where
  infoSymbolOut := fun _ => ""
  infoFileLines := []
  printfOut := fun _ => ""
  symNameFromAddr := fun _ => Except.error ⟨"", []⟩
  symtabFilename := fun _ => ""
  progspaceFilename := ""
  lookupEnum := fun _ => none
  tableEntry := fun _ _ => ⟨0, 0⟩

/-- A bland legacy-variant environment for concrete instantiations. -/
def trivOvlEnv : OvlEnv where
  infoSymbolVramStart := ""
  infoSym := fun _ => ""
  printfOut := fun _ => ""
  symtabFilename := fun _ => ""
  lookupEnum := fun _ => none
  tableEntry := fun _ _ => ⟨0, 0⟩

/-- An environment under which a `z64ovl` load succeeds end to end. -/
def okEnv : Env where
  infoSymbolOut := fun _ => "Play_Init in section ..code"
  infoFileLines := []
  printfOut := fun _ => "80800000"
  symNameFromAddr := fun _ => Except.ok "Play_Init"
  symtabFilename := fun _ => "src/overlays/play.c"
  progspaceFilename := "build/oot.elf"
  lookupEnum := fun _ => none
  tableEntry := fun _ _ => ⟨0, 0⟩

/-! ### Helper lemmas about the registry -/

theorem containsAddr_eq_false_iff (r : Registry) (a : Nat) :
    Registry.containsAddr r a = false ↔ a ∉ r.map Prod.fst := by
  rw [← Bool.not_eq_true]
  apply not_congr
  simp [Registry.containsAddr, List.any_eq_true, List.mem_map]

theorem setAddr_of_not_contains (r : Registry) (a : Nat) (v : String)
    (h : Registry.containsAddr r a = false) :
    Registry.setAddr r a v = r ++ [(a, v)] := by
  simp [Registry.setAddr, h]

theorem find_addr_of_nodup (r : Registry) (a : Nat) (o : String)
    (hn : (r.map Prod.fst).Nodup) (hm : (a, o) ∈ r) :
    r.find? (fun p => p.1 == a) = some (a, o) := by
  induction r with
  | nil => cases hm
  | cons x t ih =>
    rcases List.mem_cons.1 hm with h | h
    · subst h
      simp [List.find?]
    · have hx1 : x.1 ∉ t.map Prod.fst := (List.nodup_cons.1 (by simpa using hn)).1
      have hxa : ¬x.1 = a := by
        intro heq
        exact hx1 (heq ▸ List.mem_map.2 ⟨(a, o), h, rfl⟩)
      have hbeq : (x.1 == a) = false := by simpa using hxa
      simp only [List.find?, hbeq]
      exact ih (List.nodup_cons.1 (by simpa using hn)).2 h

/-- Shape of the registry after `load_z64overlay_object`: unchanged, or one
new entry appended at a key that was absent. -/
theorem load_registry_shape (env : Env) (st : St) (a v : Nat) :
    (load_z64overlay_object env st a v).st.registry = st.registry ∨
      (Registry.containsAddr st.registry a = false ∧
        ∃ obj, (load_z64overlay_object env st a v).st.registry = st.registry ++ [(a, obj)]) := by
  unfold load_z64overlay_object
  by_cases hc : Registry.containsAddr st.registry a = true
  · simp [hc]
  · have hc2 : Registry.containsAddr st.registry a = false := by
      simpa using hc
    rw [if_neg hc]
    rcases h1 : load_resolve_sec_name env v with ⟨e1 | s1, ps⟩
    · left
      rfl
    · rcases h2 : get_ovl_addresses env.printfOut (stripDotDot s1) with e2 | addrs
      · simp [h2]
      · rcases h3 : env.symNameFromAddr v with e3 | nm
        · simp [h2, h3]
        · simp only [h2, h3]
          exact Or.inr ⟨hc2, _, setAddr_of_not_contains st.registry a _ hc2⟩

/-- Success result of `get_ovl_addresses` always lists the four sections in
declaration order. -/
theorem get_ovl_addresses_sections (printfOut : String → String) (name : String)
    (addrs : List (SectionType × Nat))
    (h : get_ovl_addresses printfOut name = Except.ok addrs) :
    addrs.map Prod.fst = sectionTypes := by
  unfold get_ovl_addresses at h
  split at h
  · cases h
  · split at h
    · cases h
    · split at h
      · cases h
      · split at h
        · cases h
        · cases h
          rfl

/-- Shape of the host calls issued by `load_z64overlay_object`: none, or one
`add-symbol-file` call with the computed per-section offsets. -/
theorem load_calls_shape (env : Env) (st : St) (a v : Nat) :
    (load_z64overlay_object env st a v).calls = [] ∨
      ∃ path addrs, addrs.map Prod.fst = sectionTypes ∧
        (load_z64overlay_object env st a v).calls =
          [HostCall.addSymbolFile true path 0xFF000000
            ((ovl_offsets a v addrs).map (fun q => (SectionType.section_name q.1, q.2)))] := by
  unfold load_z64overlay_object
  by_cases hc : Registry.containsAddr st.registry a = true
  · simp [hc]
  · rw [if_neg hc]
    rcases h1 : load_resolve_sec_name env v with ⟨e1 | s1, ps⟩
    · left
      rfl
    · rcases h2 : get_ovl_addresses env.printfOut (stripDotDot s1) with e2 | addrs
      · simp [h2]
      · rcases h3 : env.symNameFromAddr v with e3 | nm
        · simp [h2, h3]
        · simp only [h2, h3]
          exact Or.inr ⟨_, _, get_ovl_addresses_sections _ _ _ h2, rfl⟩

/-! ### C1 -/

/-- C1: the per-section runtime offset computed during symbol loading equals
`alloc_address + (section_link_address - link_start)` for every
`alloc_address`, `link_start` and `section_link_address`; when the section
link address equals the link start the offset is exactly `alloc_address`.
This holds for all section kinds (the `ovl_offsets` comprehension of the
`z64ovl` variant maps every section address this way) and for the four
offsets of the legacy `ovl` variant, whose link start is its text-section
address. -/
theorem c1_section_offset_arithmetic :
    (∀ alloc link_start sec_link : Nat,
        section_offset alloc link_start sec_link =
          (alloc : Int) + ((sec_link : Int) - (link_start : Int))) ∧
      (∀ alloc link_start sec_link : Nat, sec_link = link_start →
        section_offset alloc link_start sec_link = (alloc : Int)) ∧
      (∀ (alloc link_start : Nat) (addrs : List (SectionType × Nat)) (sec : SectionType)
        (a : Nat), (sec, a) ∈ addrs →
        (sec, (alloc : Int) + ((a : Int) - (link_start : Int))) ∈
          ovl_offsets alloc link_start addrs) ∧
      (∀ alloc t d rd b : Nat,
        ovl_legacy_offsets alloc t d rd b =
          (section_offset alloc t t, section_offset alloc t d, section_offset alloc t rd,
            section_offset alloc t b)) := by
  refine ⟨fun _ _ _ => rfl, ?_, ?_, ?_⟩
  · intro alloc l s h
    subst h
    simp [section_offset]
  · intro alloc l addrs sec a h
    have := List.mem_map_of_mem (fun p : SectionType × Nat =>
      (p.1, section_offset alloc l p.2)) h
    simpa [section_offset, ovl_offsets] using this
  · intro alloc t d rd b
    simp [ovl_legacy_offsets, section_offset]

/-- C1 witness at concrete inputs. -/
theorem c1_section_offset_arithmetic_witness :
    section_offset 7 5 5 = (7 : Int) ∧
      (SectionType.text, (3 : Int) + ((9 : Int) - (5 : Int))) ∈
        ovl_offsets 3 5 [(SectionType.text, 9)] :=
  ⟨c1_section_offset_arithmetic.2.1 7 5 5 rfl,
    c1_section_offset_arithmetic.2.2.1 3 5 [(SectionType.text, 9)] SectionType.text 9
      (by decide)⟩

/-! ### C4 -/

/-- C4: the symbol-info parsing (`get_sym_section` followed by the `..`
prefix strip) maps the two quoted inputs, with and without the `of` suffix,
to the section name `code`. -/
theorem c4_sym_section_parsing :
    (get_sym_section ("Play_Init in section ..code of /path/to/rom.elf")).map stripDotDot =
        Except.ok "code" ∧
      (get_sym_section ("Play_Init in section ..code")).map stripDotDot = Except.ok "code" :=
  ⟨rfl, rfl⟩

/-! ### C5 -/

/-- C5: `get_section_by_addr` maps address `0x1500` against output containing
the line `0x00001060 - 0x00002000 is ..boot` to the section `..boot`, and
raises (returns the ValueError) for any address outside every listed
range. -/
theorem c5_section_by_addr_parsing :
    get_section_by_addr ["Symbols from oot.elf:", "0x00001060 - 0x00002000 is ..boot"]
        0x1500 = Except.ok "..boot" ∧
      (∀ (lines : List String) (addr : Nat),
        (∀ line ∈ lines, ∀ s e secName,
          parse_info_file_line line = some (s, e, secName) →
            ¬(maskU32 s ≤ addr ∧ addr < maskU32 e)) →
        get_section_by_addr lines addr =
          Except.error ⟨"No section found for address " ++ pyHex addr, []⟩) := by
  refine ⟨rfl, ?_⟩
  intro lines addr h
  have hnone : lines.findSome? (line_match addr) = none := by
    apply List.findSome?_eq_none_iff.2
    intro line hl
    unfold line_match
    split
    · rfl
    · next s e secName hp =>
      rw [if_neg (h line hl s e secName hp)]
  unfold get_section_by_addr
  rw [hnone]

/-- C5 witness: the address `0x2000`, equal to the sole listed range's end
bound, lies outside every range, so the lookup errors. -/
theorem c5_section_by_addr_parsing_witness :
    get_section_by_addr ["0x00001060 - 0x00002000 is ..boot"] 0x2000 =
      Except.error ⟨"No section found for address " ++ pyHex 0x2000, []⟩ :=
  c5_section_by_addr_parsing.2 ["0x00001060 - 0x00002000 is ..boot"] 0x2000 (by
    intro line hl s e secName hp
    have hline : line = "0x00001060 - 0x00002000 is ..boot" := by simpa using hl
    subst hline
    have h2 : parse_info_file_line ("0x00001060 - 0x00002000 is ..boot") =
        some (0x1060, 0x2000, "..boot") := rfl
    rw [h2] at hp
    simp only [Option.some.injEq, Prod.mk.injEq] at hp
    obtain ⟨rfl, rfl, rfl⟩ := hp
    decide)

/-! ### C7 -/

/-- C7 counterexample: for overlay name `ovl_En_Kusa` and section kind
`Text`, the code queries the linker symbol `_ovl_En_KusaSegmentTextStart`,
not `_ovl_En_KusaTextStart` as the claim states; a host knowing only the
claimed name still fails the lookup, and the failure names the `Segment`
symbol. -/
theorem c7_counterexample :
    section_start_name ("ovl_En_Kusa") ("Text") = "_ovl_En_KusaSegmentTextStart" ∧
      section_start_name ("ovl_En_Kusa") ("Text") ≠ "_ovl_En_KusaTextStart" ∧
      get_section_address
          (fun n => if n = "_ovl_En_KusaTextStart" then "80a95fa0" else "nope")
          ("ovl_En_Kusa") ("Text") =
        Except.error ⟨"Unexpected result for printf of _ovl_En_KusaSegmentTextStart",
          ["section_start_name=" ++ sq ++ "_ovl_En_KusaSegmentTextStart" ++ sq]⟩ :=
  ⟨rfl, by decide, rfl⟩

/-- C7 amended: for every overlay name and each of the four section kinds
(`Text`, `Data`, `RoData`, `Bss`), the address resolved during load is that
of the linker symbol named exactly `_<overlay>Segment<SectionKind>Start`,
and when resolution fails the raised error carries a note naming that
symbol. -/
theorem c7_linker_symbol_name_resolution :
    sectionTypes.map SectionType.linker_script_name = ["Text", "Data", "RoData", "Bss"] ∧
      (∀ ovl_name section_name : String,
        section_start_name ovl_name section_name =
          "_" ++ ovl_name ++ "Segment" ++ section_name ++ "Start") ∧
      (∀ (printfOut : String → String) (ovl_name section_name : String) (a : Nat),
        parsePyHex (printfOut (section_start_name ovl_name section_name)) = some a →
        get_section_address printfOut ovl_name section_name = Except.ok a) ∧
      (∀ (printfOut : String → String) (ovl_name section_name : String),
        parsePyHex (printfOut (section_start_name ovl_name section_name)) = none →
        ∃ e, get_section_address printfOut ovl_name section_name = Except.error e ∧
          ("section_start_name=" ++ sq ++ section_start_name ovl_name section_name ++ sq)
            ∈ e.notes) := by
  refine ⟨rfl, fun _ _ => rfl, ?_, ?_⟩
  · intro printfOut o s a h
    simp [get_section_address, get_sym_addr_from_name, h]
  · intro printfOut o s h
    simp only [get_section_address, get_sym_addr_from_name, h]
    exact ⟨_, rfl, by simp [ErrorInfo.addNote]⟩

/-- C7 amended witness at concrete inputs. -/
theorem c7_linker_symbol_name_resolution_witness :
    get_section_address (fun _ => "80a95fa0") ("ovl_En_Kusa") ("Text") =
      Except.ok 0x80a95fa0 :=
  c7_linker_symbol_name_resolution.2.2.1 (fun _ => "80a95fa0") ("ovl_En_Kusa") ("Text")
    0x80a95fa0 rfl

/-! ### C10 -/

/-- C10: the bounds parsed from a memory-layout line are truncated to their
low 32 bits before the containment check (a 64-bit sign-extended line matches
the 32-bit address `0x80000500`), and containment is half-open, so an address
equal to a range's end bound does not match that range. -/
theorem c10_mask_and_half_open :
    parse_info_file_line ("0xffffffff80000460 - 0xffffffff80010aa0 is ..boot") =
        some (0xffffffff80000460, 0xffffffff80010aa0, "..boot") ∧
      get_section_by_addr ["0xffffffff80000460 - 0xffffffff80010aa0 is ..boot"]
          0x80000500 = Except.ok "..boot" ∧
      (∀ (line : String) (addr s e : Nat) (secName : String),
        parse_info_file_line line = some (s, e, secName) →
        (line_match addr line = some secName ↔ (maskU32 s ≤ addr ∧ addr < maskU32 e))) ∧
      line_match (maskU32 0xffffffff80010aa0)
          ("0xffffffff80000460 - 0xffffffff80010aa0 is ..boot") = none := by
  refine ⟨rfl, rfl, ?_, rfl⟩
  intro line addr s e secName hp
  unfold line_match
  rw [hp]
  by_cases hc : maskU32 s ≤ addr ∧ addr < maskU32 e
  · simp [hc]
  · simp [hc]

/-- C10 witness at the 64-bit sign-extended bounds of the quoted line. -/
theorem c10_mask_and_half_open_witness :
    line_match 0x80000500 ("0xffffffff80000460 - 0xffffffff80010aa0 is ..boot") =
        some "..boot" ↔
      (maskU32 0xffffffff80000460 ≤ 0x80000500 ∧ 0x80000500 < maskU32 0xffffffff80010aa0) :=
  c10_mask_and_half_open.2.2.1 ("0xffffffff80000460 - 0xffffffff80010aa0 is ..boot")
    0x80000500 0xffffffff80000460 0xffffffff80010aa0 ("..boot") rfl

/-! ### C2 -/

/-- C2: loading an `alloc_address` already present in the registry raises
`Already loaded` before issuing any host registration call, and the registry
(and whole state) is left unchanged; moreover every load preserves
distinctness of the registry keys, so the registry holds at most one entry
per load address. -/
theorem c2_exclusive_load :
    (∀ (env : Env) (st : St) (alloc vram : Nat),
        Registry.containsAddr st.registry alloc = true →
        load_z64overlay_object env st alloc vram =
          ⟨some ⟨"Already loaded", []⟩, st, [], []⟩) ∧
      (∀ (env : Env) (st : St) (alloc vram : Nat),
        (st.registry.map Prod.fst).Nodup →
        ((load_z64overlay_object env st alloc vram).st.registry.map Prod.fst).Nodup) := by
  constructor
  · intro env st alloc vram h
    unfold load_z64overlay_object
    rw [if_pos h]
  · intro env st alloc vram hn
    rcases load_registry_shape env st alloc vram with h | ⟨hc, obj, h⟩
    · rw [h]
      exact hn
    · rw [h]
      simp only [List.map_append, List.map_cons, List.map_nil]
      refine List.Nodup.append hn (List.nodup_singleton alloc) ?_
      intro x hx hx2
      rw [List.mem_singleton] at hx2
      exact (containsAddr_eq_false_iff st.registry alloc).1 hc (hx2 ▸ hx)

/-- C2 witness at a concrete occupied registry. -/
theorem c2_exclusive_load_witness :
    load_z64overlay_object trivEnv ⟨[(5, "a.o")], false⟩ 5 0 =
      ⟨some ⟨"Already loaded", []⟩, ⟨[(5, "a.o")], false⟩, [], []⟩ :=
  c2_exclusive_load.1 trivEnv ⟨[(5, "a.o")], false⟩ 5 0 (by decide)

/-! ### C3 -/

/-- C3: unloading an address not present in the registry is a no-op: no
error, unchanged state, no host call, nothing printed.  Unloading a present
address removes exactly that entry and issues exactly one
`remove-symbol-file` call for its object path. -/
theorem c3_idempotent_unload :
    (∀ (st : St) (alloc : Nat),
        Registry.containsAddr st.registry alloc = false →
        unload_z64overlay_object st alloc = ⟨none, st, [], []⟩) ∧
      (∀ (st : St) (alloc : Nat) (obj : String),
        (st.registry.map Prod.fst).Nodup → (alloc, obj) ∈ st.registry →
        (unload_z64overlay_object st alloc).error = none ∧
          (unload_z64overlay_object st alloc).calls = [HostCall.removeSymbolFile obj] ∧
          (∀ p : Nat × String,
            p ∈ (unload_z64overlay_object st alloc).st.registry ↔
              p ∈ st.registry ∧ p.1 ≠ alloc) ∧
          (unload_z64overlay_object st alloc).st.bpLoadEnabled = st.bpLoadEnabled) := by
  constructor
  · intro st alloc h
    have hfind : st.registry.find? (fun p => p.1 == alloc) = none := by
      rw [List.find?_eq_none]
      intro p hp
      simp only [Registry.containsAddr, List.any_eq_false] at h
      exact h p hp
    unfold unload_z64overlay_object
    rw [hfind]
  · intro st alloc obj hn hm
    have hfind := find_addr_of_nodup st.registry alloc obj hn hm
    unfold unload_z64overlay_object
    rw [hfind]
    refine ⟨rfl, rfl, ?_, rfl⟩
    intro p
    show p ∈ st.registry.filter (fun q => !(q.1 == alloc)) ↔ _
    rw [List.mem_filter]
    simp

/-- C3 witness: a concrete absent address is a no-op, a concrete present
address yields exactly one deregistration call. -/
theorem c3_idempotent_unload_witness :
    unload_z64overlay_object ⟨[(5, "a.o")], true⟩ 7 = ⟨none, ⟨[(5, "a.o")], true⟩, [], []⟩ ∧
      (unload_z64overlay_object ⟨[(5, "a.o")], true⟩ 5).calls =
        [HostCall.removeSymbolFile "a.o"] :=
  ⟨c3_idempotent_unload.1 ⟨[(5, "a.o")], true⟩ 7 (by decide),
    (c3_idempotent_unload.2 ⟨[(5, "a.o")], true⟩ 5 "a.o" (by decide) (by decide)).2.1⟩

/-! ### C6 -/

/-- C6: for non-alias arguments the leading run before the first underscore
selects the overlay table (`GAMESTATE`, `ACTOR`, `EFFECT` map to their
respective table globals, as exercised by `ACTOR_EN_DAIKU` and
`GAMESTATE_MAP_SELECT`), and an unrecognised run such as that of `FOO_BAR`
yields the unsupported-type error and loads nothing, in both command
variants (in the legacy variant the dispatch runs after a successful enum
lookup). -/
theorem c6_enum_prefix_dispatch :
    (leading_non_underscore ("ACTOR_EN_DAIKU") = some "ACTOR" ∧
        table_for_ovl_type "ACTOR" = some "gActorOverlayTable") ∧
      (leading_non_underscore ("GAMESTATE_MAP_SELECT") = some "GAMESTATE" ∧
        table_for_ovl_type "GAMESTATE" = some "gGameStateOverlayTable") ∧
      table_for_ovl_type "EFFECT" = some "gEffectSsOverlayTable" ∧
      (∀ (env : Env) (st : St),
        z64ovl_invoke env st ("FOO_BAR") =
          ⟨none, st, [], ["ERROR: Type of enum provided is not supported"]⟩) ∧
      (∀ (env : Env) (st : St) (arg ty tableName : String) (index : Nat),
        pyUpper arg ≠ "AUTO ON" → pyUpper arg ≠ "AUTO OFF" → pyUpper arg ≠ "PAUSE" →
        pyUpper arg ≠ "KALEIDO" → pyUpper arg ≠ "KALEIDO_SCOPE" →
        pyUpper arg ≠ "ACTOR_PLAYER" →
        leading_non_underscore (pyUpper arg) = some ty →
        table_for_ovl_type ty = some tableName →
        Env.lookupEnum env (pyUpper arg) = some index →
        z64ovl_invoke env st arg =
          load_z64overlay_object_from_table env st tableName index) ∧
      (∀ (env : Env) (st : St) (arg ty : String),
        pyUpper arg ≠ "AUTO ON" → pyUpper arg ≠ "AUTO OFF" → pyUpper arg ≠ "PAUSE" →
        pyUpper arg ≠ "KALEIDO" → pyUpper arg ≠ "KALEIDO_SCOPE" →
        pyUpper arg ≠ "ACTOR_PLAYER" →
        leading_non_underscore (pyUpper arg) = some ty →
        table_for_ovl_type ty = none →
        z64ovl_invoke env st arg =
          ⟨none, st, [], ["ERROR: Type of enum provided is not supported"]⟩) ∧
      (∀ (env : OvlEnv) (r : OvlRegistry) (arg ty : String) (index : Nat),
        pyUpper arg ≠ "PAUSE" → pyUpper arg ≠ "KALEIDO" → pyUpper arg ≠ "KALEIDO_SCOPE" →
        pyUpper arg ≠ "ACTOR_PLAYER" →
        OvlEnv.lookupEnum env (pyUpper arg) = some index →
        leading_non_underscore (pyUpper arg) = some ty →
        table_for_ovl_type ty = none →
        ovl_invoke env r arg =
          ⟨some ⟨"Type of enum provided is not supported", []⟩, r, [], []⟩) := by
  refine ⟨⟨rfl, rfl⟩, ⟨rfl, rfl⟩, rfl, fun env st => rfl, ?_, ?_, ?_⟩
  · intro env st arg ty tableName index h1 h2 h3 h4 h5 h6 hlead htab henum
    simp only [z64ovl_invoke, h1, h2, h3, h4, h5, h6, hlead, htab, henum, if_false,
      or_self, ite_false]
  · intro env st arg ty h1 h2 h3 h4 h5 h6 hlead htab
    simp only [z64ovl_invoke, h1, h2, h3, h4, h5, h6, hlead, htab, if_false,
      or_self, ite_false]
  · intro env r arg ty index h1 h2 h3 h4 henum hlead htab
    simp only [ovl_invoke, h1, h2, h3, h4, henum, hlead, htab, if_false, or_self,
      ite_false]

/-- C6 witness: concrete dispatch of `ACTOR_EN_DAIKU` through an environment
that resolves the enum to index 3. -/
theorem c6_enum_prefix_dispatch_witness :
    z64ovl_invoke
        { trivEnv with lookupEnum := fun _ => some 3 } ⟨[], false⟩ ("ACTOR_EN_DAIKU") =
      load_z64overlay_object_from_table
        { trivEnv with lookupEnum := fun _ => some 3 } ⟨[], false⟩ "gActorOverlayTable" 3 :=
  c6_enum_prefix_dispatch.2.2.2.2.1 { trivEnv with lookupEnum := fun _ => some 3 }
    ⟨[], false⟩ ("ACTOR_EN_DAIKU") "ACTOR" "gActorOverlayTable" 3 (by decide) (by decide)
    (by decide) (by decide) (by decide) (by decide) rfl rfl rfl

/-! ### C8 -/

/-- C8: every printed-diagnostic failure aborts without side effects — a
table-driven load whose descriptor has a zero (masked) `loadedRamAddr`, an
enum name the host cannot resolve (in either variant), and an unsupported
overlay-type leading run in the tracking variant all leave the state
unchanged, issue no host call, and print exactly the diagnostic. -/
theorem c8_failure_paths_no_side_effects :
    (∀ (env : Env) (st : St) (tableName : String) (index : Nat),
        maskU32 (Env.tableEntry env tableName index).loadedRamAddr = 0 →
        load_z64overlay_object_from_table env st tableName index =
          ⟨none, st, [], ["ERROR: Requested overlay is not currently loaded"]⟩) ∧
      (∀ (env : Env) (st : St) (arg ty tableName : String),
        pyUpper arg ≠ "AUTO ON" → pyUpper arg ≠ "AUTO OFF" → pyUpper arg ≠ "PAUSE" →
        pyUpper arg ≠ "KALEIDO" → pyUpper arg ≠ "KALEIDO_SCOPE" →
        pyUpper arg ≠ "ACTOR_PLAYER" →
        leading_non_underscore (pyUpper arg) = some ty →
        table_for_ovl_type ty = some tableName →
        Env.lookupEnum env (pyUpper arg) = none →
        z64ovl_invoke env st arg =
          ⟨none, st, [], ["ERROR: Provided enum value could not be found in the elf"]⟩) ∧
      (∀ (env : Env) (st : St) (arg ty : String),
        pyUpper arg ≠ "AUTO ON" → pyUpper arg ≠ "AUTO OFF" → pyUpper arg ≠ "PAUSE" →
        pyUpper arg ≠ "KALEIDO" → pyUpper arg ≠ "KALEIDO_SCOPE" →
        pyUpper arg ≠ "ACTOR_PLAYER" →
        leading_non_underscore (pyUpper arg) = some ty →
        table_for_ovl_type ty = none →
        z64ovl_invoke env st arg =
          ⟨none, st, [], ["ERROR: Type of enum provided is not supported"]⟩) ∧
      (∀ (env : OvlEnv) (r : OvlRegistry) (arg : String),
        pyUpper arg ≠ "PAUSE" → pyUpper arg ≠ "KALEIDO" → pyUpper arg ≠ "KALEIDO_SCOPE" →
        pyUpper arg ≠ "ACTOR_PLAYER" →
        OvlEnv.lookupEnum env (pyUpper arg) = none →
        ovl_invoke env r arg =
          ⟨none, r, [], ["ERROR: Provided enum value could not be found in the elf"]⟩) ∧
      (∀ (env : OvlEnv) (r : OvlRegistry),
        AddOverlaySymbols env r 0 =
          ⟨none, r, [], ["ERROR: Requested overlay is not currently loaded"]⟩) := by
  refine ⟨?_, ?_, ?_, ?_, fun env r => rfl⟩
  · intro env st tableName index h
    simp only [load_z64overlay_object_from_table, h, if_true, ite_true]
  · intro env st arg ty tableName h1 h2 h3 h4 h5 h6 hlead htab henum
    simp only [z64ovl_invoke, h1, h2, h3, h4, h5, h6, hlead, htab, henum, if_false,
      or_self, ite_false]
  · intro env st arg ty h1 h2 h3 h4 h5 h6 hlead htab
    simp only [z64ovl_invoke, h1, h2, h3, h4, h5, h6, hlead, htab, if_false, or_self,
      ite_false]
  · intro env r arg h1 h2 h3 h4 henum
    simp only [ovl_invoke, h1, h2, h3, h4, henum, if_false, or_self, ite_false]

/-- C8 witness: concrete zero-address table entry and concrete unresolved
enum name. -/
theorem c8_failure_paths_no_side_effects_witness :
    load_z64overlay_object_from_table trivEnv ⟨[], false⟩ "gActorOverlayTable" 0 =
        ⟨none, ⟨[], false⟩, [], ["ERROR: Requested overlay is not currently loaded"]⟩ ∧
      z64ovl_invoke trivEnv ⟨[], false⟩ ("ACTOR_EN_DAIKU") =
        ⟨none, ⟨[], false⟩, [],
          ["ERROR: Provided enum value could not be found in the elf"]⟩ :=
  ⟨c8_failure_paths_no_side_effects.1 trivEnv ⟨[], false⟩ "gActorOverlayTable" 0 rfl,
    c8_failure_paths_no_side_effects.2.1 trivEnv ⟨[], false⟩ ("ACTOR_EN_DAIKU") "ACTOR"
      "gActorOverlayTable" (by decide) (by decide) (by decide) (by decide) (by decide)
      (by decide) rfl rfl rfl⟩

/-! ### C9 -/

/-- Shape of the host calls issued by `AddOverlaySymbols`: none, or one
`add-symbol-file` call carrying the four legacy section offsets. -/
theorem addOverlaySymbols_calls_shape (env : OvlEnv) (r : OvlRegistry) (a : Nat) :
    (AddOverlaySymbols env r a).calls = [] ∨
      ∃ obj t d rd b,
        (AddOverlaySymbols env r a).calls =
          [HostCall.addSymbolFile true obj 0xFF000000
            [(".text", (ovl_legacy_offsets a t d rd b).1),
              (".data", (ovl_legacy_offsets a t d rd b).2.1),
              (".rodata", (ovl_legacy_offsets a t d rd b).2.2.1),
              (".bss", (ovl_legacy_offsets a t d rd b).2.2.2)]] := by
  unfold AddOverlaySymbols
  by_cases h0 : a = 0
  · simp [h0]
  · rw [if_neg h0]
    rcases hres : get_legacy_addresses env.printfOut (ovl_sec_name_of env)
      with e | ⟨t, d, rd, b⟩
    · left
      rfl
    · right
      exact ⟨_, t, d, rd, b, rfl⟩

/-- C9: every `add-symbol-file` registration issued by either variant uses
`-readnow`, applies the fixed base offset `0xFF000000`, and carries exactly
the four per-section offsets `.text`, `.data`, `.rodata`, `.bss`; the
`AUTO ON` / `AUTO OFF` sub-commands only set the load breakpoint's enabled
flag, leaving the registry untouched and issuing no host call. -/
theorem c9_registration_flags_and_auto :
    (∀ (env : Env) (st : St) (alloc vram : Nat) (rn : Bool) (path : String) (base : Nat)
        (secs : List (String × Int)),
        HostCall.addSymbolFile rn path base secs ∈
            (load_z64overlay_object env st alloc vram).calls →
        rn = true ∧ base = 0xFF000000 ∧
          secs.map Prod.fst = [".text", ".data", ".rodata", ".bss"]) ∧
      (∀ (env : OvlEnv) (r : OvlRegistry) (alloc : Nat) (rn : Bool) (path : String)
        (base : Nat) (secs : List (String × Int)),
        HostCall.addSymbolFile rn path base secs ∈ (AddOverlaySymbols env r alloc).calls →
        rn = true ∧ base = 0xFF000000 ∧
          secs.map Prod.fst = [".text", ".data", ".rodata", ".bss"]) ∧
      (∀ (env : Env) (st : St),
        z64ovl_invoke env st ("AUTO ON") =
          ⟨none, ⟨st.registry, true⟩, [], ["z64 overlays will be automatically loaded"]⟩) ∧
      (∀ (env : Env) (st : St),
        z64ovl_invoke env st ("AUTO OFF") =
          ⟨none, ⟨st.registry, false⟩, [],
            ["z64 overlays will NOT be automatically loaded"]⟩) := by
  refine ⟨?_, ?_, fun env st => rfl, fun env st => rfl⟩
  · intro env st alloc vram rn path base secs hmem
    rcases load_calls_shape env st alloc vram with h | ⟨p2, addrs, haddrs, h⟩
    · rw [h] at hmem
      cases hmem
    · rw [h, List.mem_singleton] at hmem
      rw [HostCall.addSymbolFile.injEq] at hmem
      obtain ⟨hrn, hpath, hbase, hsecs⟩ := hmem
      refine ⟨hrn, hbase, ?_⟩
      subst hsecs
      have hmm : ((ovl_offsets alloc vram addrs).map
            (fun q => (SectionType.section_name q.1, q.2))).map Prod.fst =
          (addrs.map Prod.fst).map SectionType.section_name := by
        simp only [ovl_offsets, List.map_map]
        rfl
      rw [hmm, haddrs]
      rfl
  · intro env r alloc rn path base secs hmem
    rcases addOverlaySymbols_calls_shape env r alloc with h | ⟨obj, t, d, rd, b, h⟩
    · rw [h] at hmem
      cases hmem
    · rw [h, List.mem_singleton] at hmem
      rw [HostCall.addSymbolFile.injEq] at hmem
      obtain ⟨hrn, hpath, hbase, hsecs⟩ := hmem
      refine ⟨hrn, hbase, ?_⟩
      subst hsecs
      rfl

/-- C9 witness: a fully successful concrete load issues exactly one eager
registration at base `0xFF000000` with the four section offsets. -/
theorem c9_registration_flags_and_auto_witness :
    (true = true ∧ 0xFF000000 = 0xFF000000 ∧
        ([((".text" : String), (2153775104 : Int)), (".data", 2153775104),
            (".rodata", 2153775104), (".bss", 2153775104)].map Prod.fst =
          [".text", ".data", ".rodata", ".bss"])) ∧
      z64ovl_invoke okEnv ⟨[(9, "x.o")], false⟩ ("AUTO ON") =
        ⟨none, ⟨[(9, "x.o")], true⟩, [], ["z64 overlays will be automatically loaded"]⟩ :=
  ⟨c9_registration_flags_and_auto.1 okEnv ⟨[], false⟩ 0x80600000 0x80800000 true
      ("build/src/overlays/play.o") 0xFF000000
      [(".text", 2153775104), (".data", 2153775104), (".rodata", 2153775104),
        (".bss", 2153775104)] (by decide),
    c9_registration_flags_and_auto.2.2.1 okEnv ⟨[(9, "x.o")], false⟩⟩

end GdbLoadOvl
